/-
Verification of the incident-io MCP server adapter.

The repository contains successive revisions of a thin adapter over the
incident.io HTTP API:
  * a tool-based MCP server (embedded in README.md after the prose, in two
    near-identical revisions) with an in-memory cache of severities,
    incident types and incident statuses, lookup helpers findSeverityId /
    findIncidentTypeId / findStatusId, and tools such as create_incident,
    get_incident, update_incident_status and list_severities;
  * an express HTTP variant (src/index.ts) with a two-table cache
    (incident types, severities), endpoints under /mcp, and a response
    transform splitting always-present and optional fields;
  * an older express variant (unnamed/part_000).

This file embeds the cache, the lookup helpers, the refresh functions of
both variants, the create_incident request translator of the tool variant,
the response transform of the HTTP variant, and the error paths of
get_incident and update_incident_status, and proves the specification
claims about them.

JavaScript conventions used throughout the embedding:
  * `Option` models possibly-undefined values; `none` is `undefined`.
  * JS truthiness on strings: both `undefined` and `""` are falsy, so
    guards of the form `if (!x)` are modelled as a match on `none`
    followed by an emptiness test.
  * `??` (nullish coalescing) is `Option.getD` / a match on `none`;
    `||` (logical or) additionally treats `""` as absent.
  * `lowerStr` models `String.prototype.toLowerCase()`.
  * JSON serialization drops object keys whose value is `undefined`;
    `serializedKeys` and `filteredOptionalFields` model this.
-/
import Mathlib

namespace IncidentAdapter

/-- Lowercasing as used by the `.toLowerCase()` calls in the lookup
helpers. -/
def lowerStr (s : String) : String := String.mk (s.data.map Char.toLower)

/-- A cached severity. The adapter code only ever reads the `id` and
`name` fields of the upstream severity objects. -/
structure Severity where
  id : String
  name : String
deriving DecidableEq, Repr

/-- A cached incident type; as with severities only `id` and `name` are
read by the adapter. -/
structure IncidentType where
  id : String
  name : String
deriving DecidableEq, Repr

/-- A cached incident status; only `id` and `name` are read. -/
structure IncidentStatus where
  id : String
  name : String
deriving DecidableEq, Repr

/-- The tool variant's module-level cache: `severities`, `incidentTypes`,
`incidentStatuses`. -/
structure CacheState where
  severities : List Severity
  incidentTypes : List IncidentType
  incidentStatuses : List IncidentStatus
deriving DecidableEq, Repr

/-- The cache before any upstream fetch: all three tables are declared as
empty arrays (`let severities: any[] = []` and so on). -/
def initialCache : CacheState := { severities := [], incidentTypes := [], incidentStatuses := [] }

/-- Tool variant `refreshCache` (README embedded source). The three
fetches run under `Promise.all`, which rejects if any of them rejects;
the three assignments happen only after the awaited `Promise.all`
resolves, and the `catch` block only logs. The upstream fetch results are
passed in as `Except` values; an `Except.error` is a rejected fetch. -/
def refreshCache (st : CacheState) (sevRes : Except String (List Severity))
    (typeRes : Except String (List IncidentType))
    (statusRes : Except String (List IncidentStatus)) : CacheState :=
  match sevRes, typeRes, statusRes with
  | .ok s, .ok t, .ok u => { severities := s, incidentTypes := t, incidentStatuses := u }
  | _, _, _ => st

/-- Express variant `refreshCache` (src/index.ts lines 41-55). The two
fetches are awaited sequentially: incident types are fetched and assigned
first, then severities. A rejection anywhere jumps to the `catch`, which
only logs, so assignments made before the failing await survive. Returns
the pair (incidentTypesCache, severitiesCache). -/
def refreshCacheHttp (typesCache : List IncidentType) (sevsCache : List Severity)
    (typesRes : Except String (List IncidentType))
    (sevsRes : Except String (List Severity)) : List IncidentType × List Severity :=
  match typesRes with
  | .error _ => (typesCache, sevsCache)
  | .ok ts =>
    match sevsRes with
    | .error _ => (ts, sevsCache)
    | .ok ss => (ts, ss)

/-- True when an upstream fetch result is a rejection. -/
def isErr {ε α : Type} : Except ε α → Bool
  | .error _ => true
  | .ok _ => false

/-- Tool variant `findSeverityId` (README embedded source): look for an
exact `id` match first, then a case-insensitive `name` match; `undefined`
when neither matches. -/
def findSeverityId (sevs : List Severity) (nameOrId : String) : Option String :=
  match sevs.find? (fun s => s.id == nameOrId) with
  | some byId => some byId.id
  | none => (sevs.find? (fun s => lowerStr s.name == lowerStr nameOrId)).map (fun s => s.id)

/-- Tool variant `findIncidentTypeId`: a falsy argument (`undefined` or
`""`) resolves to nothing; otherwise exact `id` match first, then
case-insensitive `name` match. -/
def findIncidentTypeId (types : List IncidentType) (nameOrId : Option String) : Option String :=
  match nameOrId with
  | none => none
  | some s =>
    if s = "" then none
    else
      match types.find? (fun t => t.id == s) with
      | some byId => some byId.id
      | none => (types.find? (fun t => lowerStr t.name == lowerStr s)).map (fun t => t.id)

/-- Tool variant `findStatusId`: a falsy argument resolves to nothing;
otherwise only a case-insensitive `name` match is attempted. Unlike the
severity and incident-type helpers there is no `id`-equality check. -/
def findStatusId (sts : List IncidentStatus) (name : Option String) : Option String :=
  match name with
  | none => none
  | some s =>
    if s = "" then none
    else (sts.find? (fun t => lowerStr t.name == lowerStr s)).map (fun t => t.id)

/-- A JavaScript value as seen by the response translator: `undefined`,
`null`, or some defined non-null JSON value (kept opaque as its
serialized form). -/
inductive JVal
  | undef
  | jnull
  | val (s : String)
deriving DecidableEq, Repr

/-- The `value !== undefined` test used by the optional-field filter.
Note that an explicit `null` counts as defined and passes the filter. -/
def jsDefined : JVal → Bool
  | .undef => false
  | _ => true

/-- Base fields of the HTTP variant's incident transform (src/index.ts
lines 319-336): always included, in source order. The upstream incident
is a lookup from property paths to values; `incident.incident_status.name`
and `incident.severity.name` are the two nested accesses. -/
def basePairs (inc : String → JVal) : List (String × JVal) :=
  [("id", inc "id"),
   ("reference", inc "reference"),
   ("name", inc "name"),
   ("status", inc "incident_status.name"),
   ("severity", inc "severity.name"),
   ("created_at", inc "created_at"),
   ("permalink", inc "permalink"),
   ("visibility", inc "visibility"),
   ("mode", inc "mode"),
   ("summary", inc "summary"),
   ("incident_type", inc "incident_type"),
   ("postmortem_document_url", inc "postmortem_document_url"),
   ("slack_channel_id", inc "slack_channel_id"),
   ("slack_channel_name", inc "slack_channel_name"),
   ("slack_team_id", inc "slack_team_id"),
   ("updated_at", inc "updated_at")]

/-- Optional fields of the HTTP variant's incident transform
(src/index.ts lines 339-362), in source order. The outward key
`custom_fields` is fed from the upstream `custom_field_entries`
property. -/
def optionalPairs (inc : String → JVal) : List (String × JVal) :=
  [("description", inc "description"),
   ("incident_role_assignments", inc "incident_role_assignments"),
   ("labels", inc "labels"),
   ("custom_fields", inc "custom_field_entries"),
   ("resolved_at", inc "resolved_at"),
   ("started_at", inc "started_at"),
   ("ended_at", inc "ended_at"),
   ("call_url", inc "call_url"),
   ("call_url_expires_at", inc "call_url_expires_at"),
   ("call_url_created_at", inc "call_url_created_at"),
   ("call_url_updated_at", inc "call_url_updated_at"),
   ("call_url_expires_in", inc "call_url_expires_in"),
   ("call_url_expires_in_seconds", inc "call_url_expires_in_seconds"),
   ("call_url_expires_in_minutes", inc "call_url_expires_in_minutes"),
   ("call_url_expires_in_hours", inc "call_url_expires_in_hours"),
   ("call_url_expires_in_days", inc "call_url_expires_in_days"),
   ("call_url_expires_in_weeks", inc "call_url_expires_in_weeks"),
   ("call_url_expires_in_months", inc "call_url_expires_in_months"),
   ("call_url_expires_in_years", inc "call_url_expires_in_years"),
   ("external_issue_reference", inc "external_issue_reference"),
   ("duration_metrics", inc "duration_metrics"),
   ("incident_timestamp_values", inc "incident_timestamp_values")]

/-- `Object.fromEntries(Object.entries(optionalFields).filter(([_, value])
=> value !== undefined))` (src/index.ts lines 364-367). -/
def filteredOptionalFields (inc : String → JVal) : List (String × JVal) :=
  (optionalPairs inc).filter (fun p => jsDefined p.2)

/-- The spread merge `{ ...baseIncident, ...filteredOptionalFields }`.
The base and optional key sets are disjoint, so the merge is
concatenation. -/
def transformIncident (inc : String → JVal) : List (String × JVal) :=
  basePairs inc ++ filteredOptionalFields inc

/-- An axios error as observed by the handlers: `err.response?.status`
(absent on pure transport failures) and the detail text the handlers
forward (`toText(err.response?.data ?? err.message)`). -/
structure UpstreamErr where
  status : Option Nat
  detail : String
deriving DecidableEq, Repr

/-- Result envelope of the tool variant's `get_incident`: either the
upstream incident (success, no error flag) or an `isError` text. -/
inductive ToolGetOutcome
  | ok (incident : JVal)
  | err (text : String)
deriving DecidableEq, Repr

/-- Tool variant `get_incident` (README embedded source): fetch
`/incidents/{reference}`; a 404 from upstream becomes the dedicated
not-found message carrying the reference, any other failure forwards the
upstream detail verbatim. -/
def getIncidentTool (upstream : Except UpstreamErr JVal) (reference : String) : ToolGetOutcome :=
  match upstream with
  | .ok inc => .ok inc
  | .error e =>
    if e.status = some 404 then .err ("Incident " ++ reference ++ " not found")
    else .err e.detail

/-- `error.response?.status || 500`: a missing (or zero, hence falsy)
status falls back to 500. -/
def jsOrStatus (s : Option Nat) : Nat :=
  match s with
  | some n => if n = 0 then 500 else n
  | none => 500

/-- Result of the express `GET /mcp/incidents/:reference` handler: a 200
body, the dedicated 404 not-found JSON, or the generic failure JSON from
the catch block. -/
inductive HttpIncidentResult
  | ok (status : Nat) (body : List (String × JVal))
  | notFound (status : Nat) (error : String) (details : String)
  | failure (status : Nat) (error : String) (details : String)
deriving Repr

/-- Express `GET /mcp/incidents/:reference` (src/index.ts lines 604-678):
fetch the incident list, find the entry whose `reference` property equals
the requested reference, 404 with the reference echoed in the details
when none matches, otherwise transform and return the incident. A failed
upstream fetch lands in the catch block. -/
def getIncidentHttp (upstream : Except UpstreamErr (List (String → JVal)))
    (reference : String) : HttpIncidentResult :=
  match upstream with
  | .error e => .failure (jsOrStatus e.status) "Failed to fetch incident" e.detail
  | .ok incidents =>
    match incidents.find? (fun i => decide (i "reference" = JVal.val reference)) with
    | none => .notFound 404 "Incident not found" ("No incident found with reference " ++ reference)
    | some inc => .ok 200 (transformIncident inc)

/-- Outcome of the tool variant's `update_incident_status` up to its
first upstream interaction: either the early validation error (returned
before any upstream request, including the reference lookup), or the
decision to proceed, which then issues `GET /incidents/{reference}`
followed by the status POST with the resolved status id. -/
inductive UpdateOutcome
  | invalidStatus (msg : String)
  | proceed (getPath : String) (statusId : String)
deriving DecidableEq, Repr

/-- Tool variant `update_incident_status` (README embedded source): the
status argument is resolved through `findStatusId` first; a falsy result
returns the error text immediately, before the incident lookup. -/
def update_incident_status (sts : List IncidentStatus) (reference status : String) : UpdateOutcome :=
  match findStatusId sts (some status) with
  | none => .invalidStatus ("Invalid status provided: " ++ status)
  | some sid =>
    if sid = "" then .invalidStatus ("Invalid status provided: " ++ status)
    else .proceed ("/incidents/" ++ reference) sid

/-- One value inside a custom field entry (create_incident input
schema). -/
structure CustomFieldValue where
  value_text : Option String := none
  value_link : Option String := none
  value_numeric : Option Int := none
  value_option_id : Option String := none
  value_catalog_entry_id : Option String := none
  value_timestamp : Option String := none
deriving DecidableEq, Repr

/-- A custom field entry of the create_incident input schema. -/
structure CustomFieldEntry where
  custom_field_id : String
  values : List CustomFieldValue
deriving DecidableEq, Repr

/-- An assignee inside an incident role assignment. -/
structure Assignee where
  id : Option String := none
  email : Option String := none
  slack_user_id : Option String := none
deriving DecidableEq, Repr

/-- An incident role assignment of the create_incident input schema. -/
structure RoleAssignment where
  assignee : Option Assignee := none
  incident_role_id : String
deriving DecidableEq, Repr

/-- An incident timestamp value of the create_incident input schema. -/
structure TimestampValue where
  incident_timestamp_id : String
  value : String
deriving DecidableEq, Repr

/-- Arguments of the tool variant's `create_incident` (README embedded
source, input schema lines 349-409). `name` and `summary` are required;
everything else is optional. There is no `description` input. Array
arguments default to `[]` on destructuring, so they are plain lists. -/
structure CreateArgs where
  name : String
  summary : String
  severity : Option String := none
  severity_id : Option String := none
  status : Option String := none
  created_at : Option String := none
  visibility : Option String := none
  incident_type : Option String := none
  incident_type_id : Option String := none
  mode : Option String := none
  idempotency_key : Option String := none
  custom_field_entries : List CustomFieldEntry := []
  incident_role_assignments : List RoleAssignment := []
  incident_timestamp_values : List TimestampValue := []
  slack_channel_name_override : Option String := none
  slack_team_id : Option String := none
  product : Option String := none
  region : Option String := none
  feature : Option String := none
  test_incident : Option Bool := none
deriving DecidableEq, Repr

/-- Tool variant key generation: `idempotency_key ?? "mcp-" + Date.now()`
(README embedded source). `now` is the millisecond timestamp; no
randomness is involved. -/
def mkIdempotencyKeyTool (idem : Option String) (now : Nat) : String :=
  idem.getD ("mcp-" ++ toString now)

/-- Express variant key generation (src/index.ts line 498):
`idempotency_key || "mcp-" + Date.now() + "-" + Math.random()...`.
`rand` is the random base-36 suffix drawn at the call; `||` also replaces
an empty supplied key. -/
def mkIdempotencyKeyHttp (idem : Option String) (now : Nat) (rand : String) : String :=
  match idem with
  | some s => if s = "" then "mcp-" ++ toString now ++ "-" ++ rand else s
  | none => "mcp-" ++ toString now ++ "-" ++ rand

/-- A convenience parameter (`product`, `region`, `feature`) lifted into
a custom field entry: `...(product ? [{ custom_field_id: "product",
values: [{ value_text: product }] }] : [])`; a falsy value contributes
nothing. -/
def convenienceEntry (fieldId : String) (v : Option String) : List CustomFieldEntry :=
  match v with
  | none => []
  | some p =>
    if p = "" then []
    else [{ custom_field_id := fieldId, values := [{ value_text := some p }] }]

/-- The outgoing upstream payload object built by the tool variant's
`create_incident`, fields in source order. `Option` fields are the ones
that can be `undefined` in the JS object. -/
structure CreatePayload where
  idempotency_key : String
  severity_id : String
  incident_status_id : Option String
  visibility : String
  mode : String
  incident_type_id : Option String
  name : String
  summary : String
  created_at : Option String
  custom_field_entries : List CustomFieldEntry
  description : String
  test_incident : Option Bool
  incident_role_assignments : List RoleAssignment
  incident_timestamp_values : List TimestampValue
  slack_channel_name_override : Option String
  slack_team_id : Option String
deriving DecidableEq, Repr

/-- `severity_id ?? findSeverityId(severity ?? "")` (README embedded
source line 437). -/
def resolveFinalSeverityId (sevs : List Severity) (args : CreateArgs) : Option String :=
  match args.severity_id with
  | some v => some v
  | none => findSeverityId sevs (args.severity.getD "")

/-- Outcome of the tool variant's `create_incident`: the early
`isError` result (returned before any upstream request), or the upstream
POST with the payload it carries. -/
inductive ToolOutcome
  | error (msg : String)
  | call (payload : CreatePayload)
deriving DecidableEq, Repr

/-- True when the handler reached the upstream POST. -/
def ToolOutcome.isCall : ToolOutcome → Bool
  | .call _ => true
  | .error _ => false

/-- The idempotency key placed in the outgoing payload, when the handler
reached the upstream POST. -/
def ToolOutcome.payloadIdemKey : ToolOutcome → Option String
  | .call p => some p.idempotency_key
  | .error _ => none

/-- Tool variant `create_incident` handler (README embedded source lines
412-478): resolve the severity (mandatory, falsy result is an immediate
`isError` return before any upstream request), resolve incident type and
status (optional), generate the idempotency key when absent, and build
the payload for the upstream POST. -/
def createIncidentTool (sevs : List Severity) (types : List IncidentType)
    (sts : List IncidentStatus) (args : CreateArgs) (now : Nat) : ToolOutcome :=
  match resolveFinalSeverityId sevs args with
  | none => .error "Invalid severity provided"
  | some sid =>
    if sid = "" then .error "Invalid severity provided"
    else
      .call
        { idempotency_key := mkIdempotencyKeyTool args.idempotency_key now,
          severity_id := sid,
          incident_status_id := findStatusId sts args.status,
          visibility := args.visibility.getD "private",
          mode := args.mode.getD "standard",
          incident_type_id :=
            match args.incident_type_id with
            | some v => some v
            | none => findIncidentTypeId types args.incident_type,
          name := args.name,
          summary := args.summary,
          created_at := args.created_at,
          custom_field_entries :=
            args.custom_field_entries ++ convenienceEntry "product" args.product
              ++ convenienceEntry "region" args.region
              ++ convenienceEntry "feature" args.feature,
          description := args.summary,
          test_incident := args.test_incident,
          incident_role_assignments := args.incident_role_assignments,
          incident_timestamp_values := args.incident_timestamp_values,
          slack_channel_name_override := args.slack_channel_name_override,
          slack_team_id := args.slack_team_id }

/-- Helper for the JSON-serialized key set: a key is present exactly when
its value is defined. -/
def keyIfDefined {α : Type} (k : String) : Option α → List String
  | some _ => [k]
  | none => []

/-- The keys JSON serialization keeps from the outgoing payload object,
in source order: axios serializes the payload with `JSON.stringify`,
which drops properties whose value is `undefined`. -/
def serializedKeys (p : CreatePayload) : List String :=
  ["idempotency_key", "severity_id"]
    ++ keyIfDefined "incident_status_id" p.incident_status_id
    ++ ["visibility", "mode"]
    ++ keyIfDefined "incident_type_id" p.incident_type_id
    ++ ["name", "summary"]
    ++ keyIfDefined "created_at" p.created_at
    ++ ["custom_field_entries", "description"]
    ++ keyIfDefined "test_incident" p.test_incident
    ++ ["incident_role_assignments", "incident_timestamp_values"]
    ++ keyIfDefined "slack_channel_name_override" p.slack_channel_name_override
    ++ keyIfDefined "slack_team_id" p.slack_team_id

/-- Result envelope of the tool variant's `list_severities`: success
results carry no error flag (modelled as `isError := false`) and the
serialized cached table. -/
structure ListSeveritiesResult where
  isError : Bool
  content : List Severity
deriving DecidableEq, Repr

/-- Tool variant `list_severities` (README embedded source lines
297-301): returns the cached severities table as-is, unconditionally a
success. -/
def list_severities (c : CacheState) : ListSeveritiesResult :=
  { isError := false, content := c.severities }

/-- Fixture: a status table with a single entry, used to exhibit that
`findStatusId` ignores exact ID matches. -/
def statusesCex : List IncidentStatus := [{ id := "STATUS-1", name := "Investigating" }]

/-- Fixture: a severities cache with a single entry. -/
def sevsCacheCex : List Severity := [{ id := "sev-1", name := "Critical" }]

/-- Fixture: create_incident arguments supplying a `severity_id` that is
neither a cached ID nor a cached name. -/
def argsSeverityIdBypass : CreateArgs :=
  { name := "db outage", summary := "primary db down", severity_id := some "bogus" }

/-- Fixture: an incident-types table as returned by a successful types
fetch. -/
def typesFetchedCex : List IncidentType := [{ id := "type-1", name := "Default" }]

/-- Fixture: create_incident arguments with a valid severity id and no
idempotency key. -/
def argsNoIdemKey : CreateArgs :=
  { name := "db outage", summary := "primary db down", severity_id := some "sev-1" }

/-- Fixture: create_incident arguments whose incident type and status
resolve to no cached entry. -/
def argsOptWitness : CreateArgs :=
  { name := "n", summary := "s", severity_id := some "sev-1",
    incident_type := some "nosuch", status := some "nosuch" }

/-- The payload `createIncidentTool` builds from `argsOptWitness` on
empty caches at timestamp 0. -/
def optWitnessPayload : CreatePayload :=
  { idempotency_key := "mcp-0", severity_id := "sev-1", incident_status_id := none,
    visibility := "private", mode := "standard", incident_type_id := none,
    name := "n", summary := "s", created_at := none, custom_field_entries := [],
    description := "s", test_incident := none, incident_role_assignments := [],
    incident_timestamp_values := [], slack_channel_name_override := none,
    slack_team_id := none }

/-- A key of an association list with distinct keys determines its
value. -/
theorem assoc_key_unique (l : List (String × JVal)) (k : String) (a b : JVal)
    (hnd : (l.map Prod.fst).Nodup) (ha : (k, a) ∈ l) (hb : (k, b) ∈ l) : a = b := by
  induction l with
  | nil => cases ha
  | cons hd tl ih =>
    rw [List.map_cons, List.nodup_cons] at hnd
    rcases List.mem_cons.mp ha with ha1 | ha1
    · rcases List.mem_cons.mp hb with hb1 | hb1
      · have hab := ha1.trans hb1.symm
        simpa using hab
      · exfalso
        apply hnd.1
        have hkmem : k ∈ tl.map Prod.fst := List.mem_map.mpr ⟨(k, b), hb1, rfl⟩
        have hfst : hd.1 = k := by rw [← ha1]
        rw [hfst]
        exact hkmem
    · rcases List.mem_cons.mp hb with hb1 | hb1
      · exfalso
        apply hnd.1
        have hkmem : k ∈ tl.map Prod.fst := List.mem_map.mpr ⟨(k, a), ha1, rfl⟩
        have hfst : hd.1 = k := by rw [← hb1]
        rw [hfst]
        exact hkmem
      · exact ih hnd.2 ha1 hb1

/-- A key of an association list with distinct keys survives the
defined-values filter exactly when its value is defined. -/
theorem mem_map_fst_filter_defined (l : List (String × JVal)) (k : String) (v : JVal)
    (hnd : (l.map Prod.fst).Nodup) (hmem : (k, v) ∈ l) :
    (k ∈ (l.filter (fun p => jsDefined p.2)).map Prod.fst) ↔ jsDefined v = true := by
  constructor
  · intro h
    obtain ⟨p, hpf, hpk⟩ := List.mem_map.mp h
    obtain ⟨hpl, hpd⟩ := List.mem_filter.mp hpf
    have hkp : (k, p.2) ∈ l := by
      rw [← hpk]
      exact hpl
    have hv := assoc_key_unique l k v p.2 hnd hmem hkp
    rw [hv]
    exact hpd
  · intro hv
    exact List.mem_map.mpr ⟨(k, v), List.mem_filter.mpr ⟨hmem, hv⟩, rfl⟩

/-- Membership in the serialized-key fragment contributed by a possibly
undefined payload field. -/
theorem mem_keyIfDefined {α : Type} (x k : String) (o : Option α) :
    x ∈ keyIfDefined k o ↔ (x = k ∧ o.isSome = true) := by
  cases o <;> simp [keyIfDefined]

/-- C1 (amended): findSeverityId and findIncidentTypeId check exact ID
equality against the cached table first and only then case-insensitive
name equality (so an exact-ID match takes precedence, any case variant of
a name resolves the same entry, and no match yields none rather than an
error); findStatusId, by contrast, checks only case-insensitive name
equality and never checks ID equality. -/
theorem cache_lookup_resolution :
    (∀ (sevs : List Severity) (x : String) (e : Severity), e ∈ sevs → e.id = x →
      findSeverityId sevs x = some x)
    ∧ (∀ (sevs : List Severity) (x : String),
        (∀ e ∈ sevs, e.id ≠ x ∧ lowerStr e.name ≠ lowerStr x) → findSeverityId sevs x = none)
    ∧ (∀ (sevs : List Severity) (x y : String), lowerStr x = lowerStr y →
        (∀ e ∈ sevs, e.id ≠ x) → (∀ e ∈ sevs, e.id ≠ y) →
        findSeverityId sevs x = findSeverityId sevs y)
    ∧ (∀ (types : List IncidentType) (x : String) (e : IncidentType),
        x ≠ "" → e ∈ types → e.id = x → findIncidentTypeId types (some x) = some x)
    ∧ (∀ (types : List IncidentType) (x : String),
        (∀ e ∈ types, e.id ≠ x ∧ lowerStr e.name ≠ lowerStr x) →
        findIncidentTypeId types (some x) = none)
    ∧ (∀ (types : List IncidentType) (x y : String), x ≠ "" → y ≠ "" →
        lowerStr x = lowerStr y →
        (∀ e ∈ types, e.id ≠ x) → (∀ e ∈ types, e.id ≠ y) →
        findIncidentTypeId types (some x) = findIncidentTypeId types (some y))
    ∧ (∀ (sts : List IncidentStatus) (x : String),
        (∀ e ∈ sts, lowerStr e.name ≠ lowerStr x) → findStatusId sts (some x) = none)
    ∧ (∀ (sts : List IncidentStatus) (x y : String), x ≠ "" → y ≠ "" →
        lowerStr x = lowerStr y →
        findStatusId sts (some x) = findStatusId sts (some y)) := by
  refine ⟨?_, ?_, ?_, ?_, ?_, ?_, ?_, ?_⟩
  · intro sevs x e he hid
    have hsome : (sevs.find? (fun s => s.id == x)).isSome :=
      List.find?_isSome.mpr ⟨e, he, by simp [hid]⟩
    obtain ⟨w, hw⟩ := Option.isSome_iff_exists.mp hsome
    have hpw := List.find?_some hw
    simp only [beq_iff_eq] at hpw
    unfold findSeverityId
    rw [hw]
    exact congrArg some hpw
  · intro sevs x h
    have h1 : sevs.find? (fun s => s.id == x) = none :=
      List.find?_eq_none.mpr (fun e he => by simpa using (h e he).1)
    have h2 : sevs.find? (fun s => lowerStr s.name == lowerStr x) = none :=
      List.find?_eq_none.mpr (fun e he => by simpa using (h e he).2)
    unfold findSeverityId
    rw [h1, h2]
    rfl
  · intro sevs x y hxy hx hy
    have h1 : sevs.find? (fun s => s.id == x) = none :=
      List.find?_eq_none.mpr (fun e he => by simpa using hx e he)
    have h2 : sevs.find? (fun s => s.id == y) = none :=
      List.find?_eq_none.mpr (fun e he => by simpa using hy e he)
    unfold findSeverityId
    rw [h1, h2, hxy]
  · intro types x e hx he hid
    have hsome : (types.find? (fun t => t.id == x)).isSome :=
      List.find?_isSome.mpr ⟨e, he, by simp [hid]⟩
    obtain ⟨w, hw⟩ := Option.isSome_iff_exists.mp hsome
    have hpw := List.find?_some hw
    simp only [beq_iff_eq] at hpw
    simp only [findIncidentTypeId]
    rw [if_neg hx, hw]
    exact congrArg some hpw
  · intro types x h
    by_cases hx : x = ""
    · simp [findIncidentTypeId, hx]
    · have h1 : types.find? (fun t => t.id == x) = none :=
        List.find?_eq_none.mpr (fun e he => by simpa using (h e he).1)
      have h2 : types.find? (fun t => lowerStr t.name == lowerStr x) = none :=
        List.find?_eq_none.mpr (fun e he => by simpa using (h e he).2)
      simp only [findIncidentTypeId]
      rw [if_neg hx, h1, h2]
      rfl
  · intro types x y hx hy hxy hidx hidy
    have h1 : types.find? (fun t => t.id == x) = none :=
      List.find?_eq_none.mpr (fun e he => by simpa using hidx e he)
    have h2 : types.find? (fun t => t.id == y) = none :=
      List.find?_eq_none.mpr (fun e he => by simpa using hidy e he)
    simp only [findIncidentTypeId]
    rw [if_neg hx, if_neg hy, h1, h2, hxy]
  · intro sts x h
    by_cases hx : x = ""
    · simp [findStatusId, hx]
    · simp only [findStatusId]
      rw [if_neg hx, List.find?_eq_none.mpr (fun e he => by simpa using h e he)]
      rfl
  · intro sts x y hx hy hxy
    simp only [findStatusId]
    rw [if_neg hx, if_neg hy, hxy]

/-- Witness for cache_lookup_resolution: an exact-ID severity lookup, a
case-variant severity name lookup, and an unmatched status lookup. -/
theorem cache_lookup_resolution_witness :
    findSeverityId [{ id := "sev-1", name := "Critical" }] "sev-1" = some "sev-1"
      ∧ findSeverityId [{ id := "sev-1", name := "Critical" }] "CRITICAL"
          = findSeverityId [{ id := "sev-1", name := "Critical" }] "critical"
      ∧ findStatusId [{ id := "st-1", name := "Open" }] (some "closed") = none := by
  refine ⟨?_, ?_, ?_⟩
  · exact cache_lookup_resolution.1 _ "sev-1" { id := "sev-1", name := "Critical" }
      (by decide) rfl
  · exact cache_lookup_resolution.2.2.1 _ "CRITICAL" "critical" (by decide) (by decide)
      (by decide)
  · exact cache_lookup_resolution.2.2.2.2.2.2.1 _ "closed" (by decide)

/-- C1 counterexample: the claim says every resolution function checks
exact ID equality first, but `findStatusId` never checks IDs. On a table
whose single entry has ID "STATUS-1", looking up "STATUS-1" finds
nothing, even though an exact-ID match exists. -/
theorem find_status_ignores_id_cex :
    findStatusId statusesCex (some "STATUS-1") = none
      ∧ (statusesCex.find? (fun s => s.id == "STATUS-1")).isSome = true := by
  decide

/-- C2 counterexample: with a cache containing only the severity
⟨"sev-1", "Critical"⟩, a create_incident call supplying
`severity_id := "bogus"` — a value that is neither a cached ID nor a
cached name, as the second conjunct certifies — is not rejected: the
handler proceeds to the upstream POST instead of failing with the
invalid-severity error. -/
theorem create_incident_severity_bypass_cex :
    (createIncidentTool sevsCacheCex [] [] argsSeverityIdBypass 0).isCall = true
      ∧ findSeverityId sevsCacheCex "bogus" = none := by
  decide

/-- C2 (amended): when no `severity_id` is supplied and `findSeverityId`
resolves nothing for the severity argument (neither an exact cached ID
nor a case-insensitive cached name), create_incident fails with the
"Invalid severity provided" error; the error is returned before the
upstream POST (the only upstream interaction of the handler, modelled by
the `call` outcome). A directly supplied severity_id is forwarded
without cache validation. -/
theorem create_incident_invalid_severity (sevs : List Severity) (types : List IncidentType)
    (sts : List IncidentStatus) (args : CreateArgs) (now : Nat)
    (hid : args.severity_id = none)
    (hname : findSeverityId sevs (args.severity.getD "") = none) :
    createIncidentTool sevs types sts args now = ToolOutcome.error "Invalid severity provided" := by
  simp [createIncidentTool, resolveFinalSeverityId, hid, hname]

/-- Witness for create_incident_invalid_severity at a concrete cache and
arguments. -/
theorem create_incident_invalid_severity_witness :
    createIncidentTool sevsCacheCex [] []
        { name := "n", summary := "s", severity := some "sev99" } 0
      = ToolOutcome.error "Invalid severity provided" :=
  create_incident_invalid_severity _ _ _ _ _ rfl (by decide)

/-- C3 counterexample: the express variant's sequential refresh can fail
while still replacing a table. Starting from empty caches, a successful
incident-types fetch followed by a failing severities fetch is a failing
refresh execution, yet it leaves the incident-types table changed to the
fetched value. -/
theorem refresh_partial_update_cex :
    refreshCacheHttp [] [] (Except.ok typesFetchedCex) (Except.error "network failure")
        = (typesFetchedCex, [])
      ∧ typesFetchedCex ≠ [] := by
  decide

/-- C3 (amended): the tool variant's refresh fetches the three tables
under Promise.all and assigns only after all three resolved, so any fetch
failure leaves all three previously cached tables unchanged (and hence
observable by subsequent lookups); in the express variant's sequential
two-table refresh, a failure of the first (types) fetch leaves both
tables unchanged, while a failure of the severities fetch after a
successful types fetch keeps only the severities table unchanged. In
both, the failure is caught and logged, never surfaced (both functions
are total and return a cache state rather than an error). -/
theorem refresh_failure_retention :
    (∀ (st : CacheState) (sevRes : Except String (List Severity))
        (typeRes : Except String (List IncidentType))
        (statusRes : Except String (List IncidentStatus)),
      isErr sevRes = true ∨ isErr typeRes = true ∨ isErr statusRes = true →
      refreshCache st sevRes typeRes statusRes = st)
    ∧ (∀ (tc : List IncidentType) (sc : List Severity) (msg : String)
        (sevsRes : Except String (List Severity)),
        refreshCacheHttp tc sc (Except.error msg) sevsRes = (tc, sc))
    ∧ (∀ (tc : List IncidentType) (sc : List Severity) (ts : List IncidentType) (msg : String),
        refreshCacheHttp tc sc (Except.ok ts) (Except.error msg) = (ts, sc)) := by
  refine ⟨?_, ?_, ?_⟩
  · intro st sevRes typeRes statusRes h
    cases sevRes <;> cases typeRes <;> cases statusRes <;>
      first
        | rfl
        | simp [isErr] at h
  · intro tc sc msg sevsRes
    rfl
  · intro tc sc ts msg
    rfl

/-- Witness for refresh_failure_retention: a failing severities fetch in
the tool refresh leaves the initial cache intact, and a failing types
fetch in the express refresh leaves both tables intact. -/
theorem refresh_failure_retention_witness :
    refreshCache initialCache (Except.error "boom") (Except.ok typesFetchedCex) (Except.ok [])
        = initialCache
      ∧ refreshCacheHttp [] [] (Except.error "boom") (Except.ok []) = ([], []) :=
  ⟨refresh_failure_retention.1 _ _ _ _ (Or.inl rfl),
   refresh_failure_retention.2.1 _ _ _ _⟩

/-- C4: a key of the optional field group appears in the outward incident
payload exactly when the corresponding upstream value is defined; in
particular an absent (undefined) optional field contributes no key at
all — never an explicit undefined key. (An upstream value that is an
explicit `null` counts as defined in JavaScript and is passed through by
the `value !== undefined` filter.) -/
theorem optional_field_keys_iff_defined (inc : String → JVal) (k : String) (v : JVal)
    (hk : (k, v) ∈ optionalPairs inc) :
    (k ∈ (transformIncident inc).map Prod.fst) ↔ jsDefined v = true := by
  have hoptkeys : (optionalPairs inc).map Prod.fst
      = ["description", "incident_role_assignments", "labels", "custom_fields", "resolved_at",
         "started_at", "ended_at", "call_url", "call_url_expires_at", "call_url_created_at",
         "call_url_updated_at", "call_url_expires_in", "call_url_expires_in_seconds",
         "call_url_expires_in_minutes", "call_url_expires_in_hours", "call_url_expires_in_days",
         "call_url_expires_in_weeks", "call_url_expires_in_months", "call_url_expires_in_years",
         "external_issue_reference", "duration_metrics", "incident_timestamp_values"] := rfl
  have hbasekeys : (basePairs inc).map Prod.fst
      = ["id", "reference", "name", "status", "severity", "created_at", "permalink",
         "visibility", "mode", "summary", "incident_type", "postmortem_document_url",
         "slack_channel_id", "slack_channel_name", "slack_team_id", "updated_at"] := rfl
  have hnd : ((optionalPairs inc).map Prod.fst).Nodup := by
    rw [hoptkeys]
    decide
  have hkmem : k ∈ (optionalPairs inc).map Prod.fst := List.mem_map_of_mem Prod.fst hk
  have hkbase : k ∉ (basePairs inc).map Prod.fst := by
    have hdisj : ∀ x ∈ (optionalPairs inc).map Prod.fst, x ∉ (basePairs inc).map Prod.fst := by
      rw [hoptkeys, hbasekeys]
      decide
    exact hdisj k hkmem
  have hiff : (k ∈ (filteredOptionalFields inc).map Prod.fst) ↔ jsDefined v = true :=
    mem_map_fst_filter_defined (optionalPairs inc) k v hnd hk
  rw [transformIncident, List.map_append, List.mem_append]
  constructor
  · rintro (hcase | hcase)
    · exact absurd hcase hkbase
    · exact hiff.mp hcase
  · intro hv
    exact Or.inr (hiff.mpr hv)

/-- Witness for optional_field_keys_iff_defined: an upstream incident
whose every property is defined yields a payload containing the
"description" key. -/
theorem optional_field_keys_iff_defined_witness :
    ("description" ∈ (transformIncident (fun _ => JVal.val "x")).map Prod.fst)
      ↔ jsDefined (JVal.val "x") = true :=
  optional_field_keys_iff_defined (fun _ => JVal.val "x") "description" (JVal.val "x")
    (by decide)

/-- C5 counterexample: the tool variant's generated idempotency key is
"mcp-" followed by the timestamp alone. The generator consumes no
randomness, so two generation events at the same millisecond always
produce this same key — refuting the claim that the generated key
combines the timestamp with process-local randomness so that
same-timestamp generations are distinct with high probability. -/
theorem idempotency_key_timestamp_only_cex :
    (createIncidentTool sevsCacheCex [] [] argsNoIdemKey 1717171717171).payloadIdemKey
        = some "mcp-1717171717171"
      ∧ mkIdempotencyKeyTool none 1717171717171 = "mcp-1717171717171" := by
  decide

/-- C5 (amended): the express variant's generated key combines the
timestamp with a process-local random suffix, so two generation events at
the same timestamp with different random draws always yield distinct
keys; the tool variant's generated key is "mcp-" followed by the
timestamp only. -/
theorem idempotency_key_generation (now : Nat) (r₁ r₂ : String) (h : r₁ ≠ r₂) :
    mkIdempotencyKeyHttp none now r₁ ≠ mkIdempotencyKeyHttp none now r₂
      ∧ mkIdempotencyKeyTool none now = "mcp-" ++ toString now := by
  constructor
  · intro hkey
    apply h
    have hd := congrArg String.data hkey
    simp only [mkIdempotencyKeyHttp, String.data_append] at hd
    exact congrArg String.mk (List.append_cancel_left hd)
  · rfl

/-- Witness for idempotency_key_generation at a concrete timestamp and
two concrete random suffixes. -/
theorem idempotency_key_generation_witness :
    mkIdempotencyKeyHttp none 5 "ab" ≠ mkIdempotencyKeyHttp none 5 "cd"
      ∧ mkIdempotencyKeyTool none 5 = "mcp-" ++ toString 5 :=
  idempotency_key_generation 5 "ab" "cd" (by decide)

/-- C6: incident-type and status resolution in create_incident are
optional. When no incident_type_id is supplied and neither the incident
type nor the status resolves to a cached entry, the handler still reaches
the upstream POST (first conjunct hypotheses plus second conjunct), and
the serialized outgoing payload omits both the incident_type_id and the
incident_status_id keys (undefined-valued properties are dropped by JSON
serialization). -/
theorem create_incident_optional_type_status :
    (∀ (sevs : List Severity) (types : List IncidentType) (sts : List IncidentStatus)
        (args : CreateArgs) (now : Nat) (p : CreatePayload),
      createIncidentTool sevs types sts args now = ToolOutcome.call p →
      args.incident_type_id = none →
      findIncidentTypeId types args.incident_type = none →
      findStatusId sts args.status = none →
      "incident_type_id" ∉ serializedKeys p ∧ "incident_status_id" ∉ serializedKeys p)
    ∧ (∀ (sevs : List Severity) (types : List IncidentType) (sts : List IncidentStatus)
        (args : CreateArgs) (now : Nat) (sid : String),
        resolveFinalSeverityId sevs args = some sid → sid ≠ "" →
        (createIncidentTool sevs types sts args now).isCall = true) := by
  constructor
  · intro sevs types sts args now p hcall htid htype hstat
    unfold createIncidentTool at hcall
    cases hres : resolveFinalSeverityId sevs args with
    | none =>
      simp only [hres] at hcall
      exact ToolOutcome.noConfusion hcall
    | some sid =>
      simp only [hres] at hcall
      by_cases hsid : sid = ""
      · rw [if_pos hsid] at hcall
        exact ToolOutcome.noConfusion hcall
      · rw [if_neg hsid] at hcall
        injection hcall with hpay
        rw [← hpay]
        refine ⟨?_, ?_⟩ <;>
          simp [serializedKeys, mem_keyIfDefined, htid, htype, hstat]
  · intro sevs types sts args now sid hres hsid
    simp only [createIncidentTool, hres]
    rw [if_neg hsid]
    rfl

/-- Witness for create_incident_optional_type_status: arguments whose
incident type and status match nothing produce a payload without either
key, and the handler reaches the upstream POST. -/
theorem create_incident_optional_type_status_witness :
    ("incident_type_id" ∉ serializedKeys optWitnessPayload
        ∧ "incident_status_id" ∉ serializedKeys optWitnessPayload)
      ∧ (createIncidentTool [] [] [] argsOptWitness 0).isCall = true := by
  constructor
  · exact create_incident_optional_type_status.1 [] [] [] argsOptWitness 0 optWitnessPayload
      (by decide) rfl (by decide) (by decide)
  · exact create_incident_optional_type_status.2 [] [] [] argsOptWitness 0 "sev-1" rfl
      (by decide)

/-- C7: a get_incident whose reference matches no upstream incident
yields the dedicated not-found result echoing the exact reference
string. First conjunct: tool variant, where the unmatched reference
manifests as an upstream 404. Second conjunct: express variant, where the
fetched incident list contains no entry with that reference property.
Third conjunct: the express not-found result is distinct from the generic
failure result produced by the catch block. -/
theorem get_incident_not_found :
    (∀ (e : UpstreamErr) (reference : String), e.status = some 404 →
      getIncidentTool (Except.error e) reference
        = ToolGetOutcome.err ("Incident " ++ reference ++ " not found"))
    ∧ (∀ (incidents : List (String → JVal)) (reference : String),
        (∀ i ∈ incidents, i "reference" ≠ JVal.val reference) →
        getIncidentHttp (Except.ok incidents) reference
          = HttpIncidentResult.notFound 404 "Incident not found"
              ("No incident found with reference " ++ reference))
    ∧ (∀ (s₁ s₂ : Nat) (e₁ d₁ e₂ d₂ : String),
        HttpIncidentResult.notFound s₁ e₁ d₁ ≠ HttpIncidentResult.failure s₂ e₂ d₂) := by
  refine ⟨?_, ?_, ?_⟩
  · intro e reference h
    simp [getIncidentTool, h]
  · intro incidents reference h
    have hf : incidents.find? (fun i => decide (i "reference" = JVal.val reference)) = none :=
      List.find?_eq_none.mpr (fun i hi => by simpa using h i hi)
    simp [getIncidentHttp, hf]
  · intro s₁ s₂ e₁ d₁ e₂ d₂ h
    exact HttpIncidentResult.noConfusion h

/-- Witness for get_incident_not_found: a 404 for reference INC-1080 in
the tool variant and an empty upstream incident list in the express
variant. -/
theorem get_incident_not_found_witness :
    getIncidentTool (Except.error { status := some 404, detail := "" }) "INC-1080"
        = ToolGetOutcome.err ("Incident " ++ "INC-1080" ++ " not found")
      ∧ getIncidentHttp (Except.ok []) "INC-1080"
          = HttpIncidentResult.notFound 404 "Incident not found"
              ("No incident found with reference " ++ "INC-1080") :=
  ⟨get_incident_not_found.1 _ _ rfl,
   get_incident_not_found.2.1 [] _ (fun i hi => absurd hi (List.not_mem_nil i))⟩

/-- C8: list_severities invoked on the cache in its initial state (before
any upstream fetch has populated it) returns a success result carrying
the empty collection, not an error. -/
theorem list_severities_initial_empty :
    list_severities initialCache = { isError := false, content := [] } := rfl

/-- C9: an update_incident_status whose status argument matches no cached
incident status by case-insensitive name returns the error result whose
message is "Invalid status provided: " followed by the supplied status
string; the `invalidStatus` outcome is returned before any upstream
request — in particular before the reference-to-ID lookup, which only
happens on the `proceed` outcome. -/
theorem update_status_invalid_no_upstream (sts : List IncidentStatus)
    (reference status : String)
    (h : ∀ e ∈ sts, lowerStr e.name ≠ lowerStr status) :
    update_incident_status sts reference status
      = UpdateOutcome.invalidStatus ("Invalid status provided: " ++ status) := by
  have hfind : findStatusId sts (some status) = none := by
    by_cases hs : status = ""
    · simp [findStatusId, hs]
    · simp only [findStatusId]
      rw [if_neg hs, List.find?_eq_none.mpr (fun e he => by simpa using h e he)]
      rfl
  simp [update_incident_status, hfind]

/-- Witness for update_status_invalid_no_upstream: a status string that
matches nothing in a one-entry status table. -/
theorem update_status_invalid_no_upstream_witness :
    update_incident_status [{ id := "st-1", name := "Open" }] "INC-1080" "bogus"
      = UpdateOutcome.invalidStatus ("Invalid status provided: " ++ "bogus") :=
  update_status_invalid_no_upstream _ _ _ (by decide)

/-- C10: whenever the tool variant's create_incident reaches the upstream
POST, the payload's description field is the summary argument verbatim
(the input schema has no description parameter; the handler sets
`description: summary`). -/
theorem create_incident_description_equals_summary (sevs : List Severity)
    (types : List IncidentType) (sts : List IncidentStatus) (args : CreateArgs)
    (now : Nat) (p : CreatePayload)
    (h : createIncidentTool sevs types sts args now = ToolOutcome.call p) :
    p.description = args.summary := by
  unfold createIncidentTool at h
  cases hres : resolveFinalSeverityId sevs args with
  | none =>
    simp only [hres] at h
    exact ToolOutcome.noConfusion h
  | some sid =>
    simp only [hres] at h
    by_cases hsid : sid = ""
    · rw [if_pos hsid] at h
      exact ToolOutcome.noConfusion h
    · rw [if_neg hsid] at h
      injection h with hpay
      rw [← hpay]

/-- Witness for create_incident_description_equals_summary at concrete
arguments and the payload they produce. -/
theorem create_incident_description_equals_summary_witness :
    optWitnessPayload.description = argsOptWitness.summary :=
  create_incident_description_equals_summary [] [] [] argsOptWitness 0 optWitnessPayload
    (by decide)

end IncidentAdapter
